import Mathlib

/-
Verification development for the RFMD analysis service
(src/Backend/myapi.py, the normative cached variant; src/myapi/myapi.py is
a near-identical copy with the same cache and aggregation logic).

Embedding conventions:
* A pandas DataFrame row is a typed `Homeowner` record (the pydantic model of
  the source); a Dataset is a `List Homeowner` in row order.
* Float-valued columns (`monetary`, `RFMD_score`) and timestamps are modelled
  as exact rationals / integers; dates as integer day ordinals.
* `Option` models nullable columns (NaN/None); pandas reductions skip nulls.
* `extra` models untyped DataFrame columns beyond the pydantic schema, such as
  the legacy "area" column that `get_top10` drops.
* pandas `sort_values(ascending=False)` is `nargsort`: an ascending argsort
  (kind "quicksort", which is insertion sort below numpy's 16-element
  threshold) whose index array is then reversed, with NaN keys appended last
  in original order.  It is modelled by `sortDescBy` / `sortDescNaLast`.
* Failure of a function that can raise is modelled by `Option` (`none` for the
  raised exception), and the BigQuery loader outcome by an
  `Option (List Homeowner)` argument (`none` = fetch failure).
-/

namespace RFMD

/-- One row of the homeowners table: the pydantic `Homeowner` model of
src/Backend/myapi.py (lines 61-79), plus `extra` for untyped DataFrame
columns such as the legacy "area" column. -/
structure Homeowner where
  customer_id : String := ""
  first_transaction : Option Int := none
  last_transaction : Option Int := none
  frequency : Option Int := none
  monetary : Option ℚ := none
  recency : Option Int := none
  duration : Option Int := none
  segment : Option String := none
  R_score : Option Int := none
  F_score : Option Int := none
  M_score : Option Int := none
  D_score : Option Int := none
  RFMD_score : Option ℚ := none
  cluster : Option Int := none
  Trade : Option String := none
  Post_code : Option String := none
  sub_region : Option String := none
  region : Option String := none
  extra : List (String × String) := []
deriving DecidableEq

/-- Ascending order on a rational sort key. -/
def keyLe {α : Type} (key : α → ℚ) (a b : α) : Prop := key a ≤ key b

instance {α : Type} (key : α → ℚ) : DecidableRel (keyLe key) :=
  fun a b => inferInstanceAs (Decidable (key a ≤ key b))

instance {α : Type} (key : α → ℚ) : IsTotal α (keyLe key) :=
  ⟨fun a b => le_total (key a) (key b)⟩

instance {α : Type} (key : α → ℚ) : IsTrans α (keyLe key) :=
  ⟨fun _ _ _ => le_trans⟩

/-- pandas descending sort on a non-null key column: with `ascending=False`,
`nargsort` REVERSES the input (values and index) first, runs a stable
ascending argsort (numpy insertion sort at this scale), and reverses the
resulting indexer again — the standard reverse-sort-reverse construction of
a STABLE descending sort, so ties keep their original input order. -/
def sortDescBy {α : Type} (key : α → ℚ) (xs : List α) : List α :=
  (List.insertionSort (keyLe key) xs.reverse).reverse

/-- pandas descending sort of a nullable key column, `na_position="last"`:
non-null rows are `nargsort`ed descending, null-key rows follow in original
order. -/
def sortDescNaLast {α : Type} (key : α → Option ℚ) (xs : List α) : List α :=
  sortDescBy (fun a => (key a).getD 0) (xs.filter (fun a => (key a).isSome))
    ++ xs.filter (fun a => !(key a).isSome)

/-- pandas `Series.value_counts()` (used on the `Trade` column): occurrences
per distinct non-null value, sorted by count descending (`dropna=True`,
`sort=True`).  The distinct-value order before the count sort is a pandas
hash-table artefact; it is modelled by `List.dedup`, and no stated property
depends on it. -/
def value_counts (xs : List (Option String)) : List (String × Nat) :=
  let vs := xs.filterMap id
  sortDescBy (fun p => (p.2 : ℚ)) (vs.dedup.map (fun k => (k, vs.count k)))

/-- `Series.value_counts().idxmax()`: the label with the maximal count, i.e.
the head of the count-sorted list; `none` models the `ValueError` raised on an
empty (all-null) column. -/
def idxmaxCount (xs : List (Option String)) : Option String :=
  (value_counts xs).head?.map (·.1)

/-- Python `round(q, 2)`: round to 2 decimal places, ties to even.
(The source applies this to IEEE-754 doubles; here it acts on the exact
rational value.) -/
def rnd2 (q : ℚ) : ℚ :=
  let x := q * 100
  let f : ℤ := ⌊x⌋
  let r : ℤ :=
    if (1 : ℚ) / 2 < x - f then f + 1
    else if x - f < 1 / 2 then f
    else if f % 2 = 0 then f else f + 1
  (r : ℚ) / 100

/-- `round` lifted over a nullable value (`round(nan, 2)` is `nan`). -/
def rnd2o (x : Option ℚ) : Option ℚ := x.map rnd2

/-- pandas mean of a nullable column (`skipna=True`): the mean of the present
values, `NaN` (here `none`) if no value is present. -/
def optMeanQ (xs : List (Option ℚ)) : Option ℚ :=
  let vs := xs.filterMap id
  if vs.length = 0 then none else some (vs.sum / vs.length)

/-- Mean of a nullable field over a list of rows. -/
def meanBy {α : Type} (f : α → Option ℚ) (rs : List α) : Option ℚ :=
  optMeanQ (rs.map f)

/-- View an integer-valued nullable column as rational-valued. -/
def intScore (f : Homeowner → Option Int) (r : Homeowner) : Option ℚ :=
  (f r).map Int.cast

/-- Python truthiness of an optional query-string parameter: `None` and the
empty string are falsy. -/
def truthy : Option String → Bool
  | none => false
  | some s => !(s == "")

-- ---------- DatasetCache (src/Backend/myapi.py lines 31-58) ----------

/-- `REFRESH_INTERVAL = 15 * 24 * 60 * 60` seconds (15 days). -/
def REFRESH_INTERVAL : Int := 15 * 24 * 60 * 60

/-- The module-level `CACHE = {"data": None, "last_refresh": 0}`. -/
structure CacheState where
  data : Option (List Homeowner)
  last_refresh : Int
deriving DecidableEq

/-- `load_base_df()`: queries BigQuery; on any exception it logs and returns
an empty DataFrame.  The fetch outcome is the `fetch` argument (`none` =
LoadError), so the function itself never fails. -/
def load_base_df (fetch : Option (List Homeowner)) : List Homeowner :=
  fetch.getD []

/-- Observable outcome of one `get_cached_data()` call: the returned
DataFrame, the cache state afterwards, and whether `load_base_df` ran. -/
structure GetResult where
  out : List Homeowner
  state : CacheState
  loaderCalled : Bool
deriving DecidableEq

/-- `get_cached_data()`: refresh when no data is cached or the interval is
exceeded, unconditionally storing whatever `load_base_df` returned and
stamping `last_refresh = now`; otherwise serve the cached DataFrame. -/
def get_cached_data (fetch : Option (List Homeowner)) (now : Int)
    (s : CacheState) : GetResult :=
  if s.data = none ∨ REFRESH_INTERVAL < now - s.last_refresh then
    ⟨load_base_df fetch, ⟨some (load_base_df fetch), now⟩, true⟩
  else
    ⟨s.data.getD [], s, false⟩

/-- Sequential `get_cached_data()` calls: each list entry is a call time and
the loader outcome a refresh at that moment would see.  Returns the list of
served DataFrames, the final cache state, and how often the loader ran. -/
def runSeq : CacheState → List (Int × Option (List Homeowner)) →
    List (List Homeowner) × CacheState × Nat
  | s, [] => ([], s, 0)
  | s, c :: rest =>
    let r := get_cached_data c.2 c.1 s
    let t := runSeq r.state rest
    (r.out :: t.1, t.2.1, t.2.2 + (if r.loaderCalled then 1 else 0))

-- ---------- AggregationService (src/Backend/myapi.py lines 94-172) ----------

/-- Outcome of one endpoint body: the JSON value it returns, or an uncaught
exception propagating out of the handler as a server error. -/
inductive ApiResult (α : Type) where
  | ok : α → ApiResult α
  | err : ApiResult α
deriving DecidableEq

/-- Map a function over a successful endpoint result. -/
def apiMap {α β : Type} (f : α → β) : ApiResult α → ApiResult β
  | .ok a => .ok (f a)
  | .err => .err

/-- `/homeowners/kpis` response shape (non-empty case). -/
structure KpiOut where
  total_customers : Nat
  avg_rfmd : Option ℚ
  avg_monetary : Option ℚ
  avg_frequency : Option ℚ
  top_trade : String
  top_region : String
deriving DecidableEq

/-- `get_kpis()`: `{}` (here `.ok none`) on an empty DataFrame, otherwise
count, 2-dp-rounded means and most frequent `Trade`/`region`.  The inline
`if not df.empty else "N/A"` guards in the source are dead in this branch;
on a NON-empty frame whose `Trade` (or `region`) column is entirely null,
`value_counts().idxmax()` raises `ValueError`, which propagates out of the
handler — modelled by `.err`. -/
def get_kpis (ds : List Homeowner) : ApiResult (Option KpiOut) :=
  if ds.isEmpty then .ok none
  else
    match idxmaxCount (ds.map (·.Trade)), idxmaxCount (ds.map (·.region)) with
    | some tt, some tr =>
      .ok (some
        { total_customers := ds.length
          avg_rfmd := rnd2o (meanBy (·.RFMD_score) ds)
          avg_monetary := rnd2o (meanBy (·.monetary) ds)
          avg_frequency := rnd2o (meanBy (intScore (·.frequency)) ds)
          top_trade := tt
          top_region := tr })
    | _, _ => .err

/-- `df.groupby("segment")` group keys: the distinct non-null `segment`
values (`dropna=True`).  pandas additionally sorts the keys; no stated
property depends on the key order, so the `dedup` order is kept. -/
def segKeys (ds : List Homeowner) : List String :=
  (ds.filterMap (·.segment)).dedup

/-- The rows of one segment group, in original order. -/
def segGroup (ds : List Homeowner) (k : String) : List Homeowner :=
  ds.filter (fun r => r.segment = some k)

/-- Per-group mean of one score column (`groupby("segment")[col].mean()`). -/
def groupScoreMean (f : Homeowner → Option Int) (ds : List Homeowner)
    (k : String) : Option ℚ :=
  meanBy (intScore f) (segGroup ds k)

/-- `grouped.mean()` for one score column: the mean of the per-group means
(NaN group means skipped), i.e. a mean of means, not a flat mean over rows. -/
def radarFallback (f : Homeowner → Option Int) (ds : List Homeowner) :
    Option ℚ :=
  optMeanQ ((segKeys ds).map (fun k => groupScoreMean f ds k))

/-- `/homeowners/radar` response shape. -/
structure RadarOut where
  labels : List String
  scores : List (Option ℚ)
deriving DecidableEq

/-- `get_radar(segment)`: group by `segment`, average the four score columns
per group; if the `segment` parameter is truthy (non-None, non-empty) and is
one of the group keys, serve that group's averages, otherwise serve the mean
of the group averages.  (`seg_data.get(col, 0)` in the source always finds
the key, so the `0` default is dead.) -/
def get_radar (ds : List Homeowner) (segment : Option String) : RadarOut :=
  let pick : (Homeowner → Option Int) → Option ℚ := fun f =>
    match segment with
    | some s =>
      if s ≠ "" ∧ s ∈ segKeys ds then groupScoreMean f ds s
      else radarFallback f ds
    | none => radarFallback f ds
  { labels := ["Recency", "Frequency", "Monetary", "Duration"]
    scores := [pick (·.R_score), pick (·.F_score), pick (·.M_score),
      pick (·.D_score)] }

/-- `if region and region != "All Regions": df = df[df["region"] == region]`.
A `None` or empty-string parameter is falsy and skips the filter. -/
def regionFilter (region : Option String) (ds : List Homeowner) :
    List Homeowner :=
  match region with
  | some s =>
    if s ≠ "" ∧ s ≠ "All Regions" then ds.filter (fun r => r.region = some s)
    else ds
  | none => ds

/-- The analogous `sub_region` filter with sentinel "All Sub-Regions". -/
def subRegionFilter (sub : Option String) (ds : List Homeowner) :
    List Homeowner :=
  match sub with
  | some s =>
    if s ≠ "" ∧ s ≠ "All Sub-Regions" then
      ds.filter (fun r => r.sub_region = some s)
    else ds
  | none => ds

/-- `get_tradecounts(region, sub_region)`: apply the two optional filters in
sequence, then count occurrences per non-null `Trade` value. -/
def get_tradecounts (ds : List Homeowner) (region sub_region : Option String) :
    List (String × Nat) :=
  value_counts ((subRegionFilter sub_region (regionFilter region ds)).map
    (·.Trade))

/-- Mean `RFMD_score` of one segment group
(`df.groupby("segment")["RFMD_score"].mean()`). -/
def segMeanRFMD (ds : List Homeowner) (k : String) : Option ℚ :=
  meanBy (·.RFMD_score) (segGroup ds k)

/-- The `seg_scores` series of `get_summary` before sorting: group key paired
with its mean `RFMD_score`. -/
def seg_pairs (ds : List Homeowner) : List (String × Option ℚ) :=
  (segKeys ds).map (fun k => (k, segMeanRFMD ds k))

/-- `seg_scores.sort_values(ascending=False)` (NaN means last). -/
def seg_scores_sorted (ds : List Homeowner) : List (String × Option ℚ) :=
  sortDescNaLast (fun p => p.2) (seg_pairs ds)

/-- `df.groupby("region")` group keys (distinct non-null regions). -/
def regionKeys (ds : List Homeowner) : List String :=
  (ds.filterMap (·.region)).dedup

/-- The rows of one region group. -/
def regGroup (ds : List Homeowner) (k : String) : List Homeowner :=
  ds.filter (fun r => r.region = some k)

/-- `groupby("region")["monetary"].sum()` for one group: sum of the present
`monetary` values (pandas sums an all-null group to 0, never NaN). -/
def regMonetarySum (ds : List Homeowner) (k : String) : ℚ :=
  ((regGroup ds k).filterMap (·.monetary)).sum

/-- The `reg_scores` series of `get_summary` before sorting. -/
def reg_pairs (ds : List Homeowner) : List (String × ℚ) :=
  (regionKeys ds).map (fun k => (k, regMonetarySum ds k))

/-- `reg_scores.sort_values(ascending=False)` (sums are never NaN). -/
def reg_scores_sorted (ds : List Homeowner) : List (String × ℚ) :=
  sortDescBy (fun p => p.2) (reg_pairs ds)

/-- `/homeowners/summary` response shape (non-empty case). -/
structure SummaryOut where
  total_customers : Nat
  avg_rfmd : Option ℚ
  top_trade : String
  top_region : String
  avg_monetary : Option ℚ
  avg_frequency : Option ℚ
  best_segment : String
  best_segment_score : Option ℚ
  best_region_revenue : String
  best_region_revenue_value : ℚ
deriving DecidableEq

/-- `get_summary()`: `{}` (here `.ok none`) on an empty DataFrame; otherwise
the KPI figures plus the head of the descending-sorted per-segment mean
`RFMD_score` series and of the per-region `monetary` sum series, with the
"N/A"/0 fallbacks of the source when a series is empty.  On a NON-empty
frame whose `Trade` (or `region`) column is entirely null,
`value_counts().idxmax()` (myapi.py:151-152) raises `ValueError` before any
dict is built — modelled by `.err`. -/
def get_summary (ds : List Homeowner) : ApiResult (Option SummaryOut) :=
  if ds.isEmpty then .ok none
  else
    match idxmaxCount (ds.map (·.Trade)), idxmaxCount (ds.map (·.region)) with
    | some tt, some tr =>
      .ok (some
        { total_customers := ds.length
          avg_rfmd := rnd2o (meanBy (·.RFMD_score) ds)
          top_trade := tt
          top_region := tr
          avg_monetary := rnd2o (meanBy (·.monetary) ds)
          avg_frequency := rnd2o (meanBy (intScore (·.frequency)) ds)
          best_segment :=
            match seg_scores_sorted ds with
            | [] => "N/A"
            | p :: _ => p.1
          best_segment_score :=
            match seg_scores_sorted ds with
            | [] => some 0
            | p :: _ => rnd2o p.2
          best_region_revenue :=
            match reg_scores_sorted ds with
            | [] => "N/A"
            | p :: _ => p.1
          best_region_revenue_value :=
            match reg_scores_sorted ds with
            | [] => 0
            | p :: _ => rnd2 p.2 })
    | _, _ => .err

-- ---------- Specification-side predicate (for the amended C6) ----------

/-- The region condition on one record: vacuous when the parameter is
absent, empty, or the "All Regions" sentinel, otherwise an exact match. -/
def regionPass (region : Option String) (r : Homeowner) : Bool :=
  match region with
  | some s =>
    if s ≠ "" ∧ s ≠ "All Regions" then decide (r.region = some s) else true
  | none => true

/-- The analogous sub-region condition with sentinel "All Sub-Regions". -/
def subRegionPass (sub : Option String) (r : Homeowner) : Bool :=
  match sub with
  | some s =>
    if s ≠ "" ∧ s ≠ "All Sub-Regions" then decide (r.sub_region = some s)
    else true
  | none => true

/-- The record-keeping predicate in the claim's own terms, as a single pass:
keep a record iff it passes the region condition and the sub-region
condition. -/
def specKeep (region sub : Option String) (r : Homeowner) : Bool :=
  regionPass region r && subRegionPass sub r

-- ---------- Concrete example records used by witnesses and counterexamples --

/-- A record with every nullable field null. -/
def exNull : Homeowner := { customer_id := "x" }

/-- A record with null segment and region but present Trade and region
columns elsewhere: segment-less yet summary() still returns. -/
def exNoSeg : Homeowner :=
  { customer_id := "x"
    Trade := some "T"
    region := some "R" }

/-- A one-field record for cache scenarios. -/
def exCache : Homeowner := { customer_id := "c1" }

/-- Segment-A record of the spec's radar example (scores 1,2,3,4). -/
def exSegA : Homeowner :=
  { segment := some "A"
    R_score := some 1
    F_score := some 2
    M_score := some 3
    D_score := some 4 }

/-- Segment-B record of the spec's radar example (scores 3,4,5,6). -/
def exSegB : Homeowner :=
  { segment := some "B"
    R_score := some 3
    F_score := some 4
    M_score := some 5
    D_score := some 6 }

/-- A record whose segment is the empty string (scores all 1). -/
def exSegEmpty : Homeowner :=
  { segment := some ""
    R_score := some 1
    F_score := some 1
    M_score := some 1
    D_score := some 1 }

/-- A second segment group for the empty-string radar scenario (scores 3). -/
def exSegOther : Homeowner :=
  { segment := some "B"
    R_score := some 3
    F_score := some 3
    M_score := some 3
    D_score := some 3 }

/-- Record with an empty-string region. -/
def exRegEmpty : Homeowner := { region := some "", Trade := some "X" }

/-- Record with region "N". -/
def exRegN : Homeowner := { region := some "N", Trade := some "Y" }

/-- The spec's trade-count test vector, first record. -/
def exNorthA : Homeowner :=
  { region := some "North"
    sub_region := some "A"
    Trade := some "T1" }

/-- The spec's trade-count test vector, second record. -/
def exNorthB : Homeowner :=
  { region := some "North"
    sub_region := some "B"
    Trade := some "T2" }

/-- The spec's trade-count test vector, third record. -/
def exSouthA : Homeowner :=
  { region := some "South"
    sub_region := some "A"
    Trade := some "T1" }

/-- Single record whose segment-group mean (1/8) rounds to 0.12 ≠ 1/8. -/
def exEighth : Homeowner :=
  { customer_id := "y"
    segment := some "A"
    RFMD_score := some (1 / 8)
    Trade := some "T"
    region := some "R" }

/-- A record carrying data for both the segment and the region side of the
summary. -/
def exFull : Homeowner :=
  { segment := some "S"
    RFMD_score := some 3
    Trade := some "T"
    region := some "W"
    monetary := some 7 }

/-- A record with a present segment next to a null-segment record. -/
def exSegOnly : Homeowner := { segment := some "A", RFMD_score := some 1 }

-- ---------- Helper lemmas on the sorting primitives ----------

theorem mem_sortDescBy {α : Type} {key : α → ℚ} {xs : List α} {a : α} :
    a ∈ sortDescBy key xs ↔ a ∈ xs := by
  simp [sortDescBy, List.mem_insertionSort]

theorem length_sortDescBy {α : Type} (key : α → ℚ) (xs : List α) :
    (sortDescBy key xs).length = xs.length := by
  simp [sortDescBy, List.length_insertionSort]

theorem pairwise_sortDescBy {α : Type} (key : α → ℚ) (xs : List α) :
    List.Pairwise (fun a b => key b ≤ key a) (sortDescBy key xs) := by
  have h := List.sorted_insertionSort (keyLe key) xs.reverse
  rw [sortDescBy, List.pairwise_reverse]
  exact h

theorem sortDescBy_head_max {α : Type} {key : α → ℚ} {xs : List α} {y : α}
    {t : List α} (h : sortDescBy key xs = y :: t) :
    y ∈ xs ∧ ∀ a ∈ xs, key a ≤ key y := by
  have hp := pairwise_sortDescBy key xs
  rw [h] at hp
  refine ⟨mem_sortDescBy.mp (h ▸ List.mem_cons_self y t), ?_⟩
  intro a ha
  have hmem : a ∈ y :: t := h ▸ mem_sortDescBy.mpr ha
  rcases List.mem_cons.mp hmem with rfl | hmem
  · exact le_refl _
  · exact (List.pairwise_cons.mp hp).1 a hmem

theorem mem_sortDescNaLast {α : Type} {key : α → Option ℚ} {xs : List α}
    {a : α} : a ∈ sortDescNaLast key xs ↔ a ∈ xs := by
  simp only [sortDescNaLast, List.mem_append, mem_sortDescBy, List.mem_filter]
  cases h : key a <;> simp [h]

theorem sortDescNaLast_head_max {α : Type} {key : α → Option ℚ} {xs : List α}
    {y : α} {t : List α} {a0 : α} {q0 : ℚ} (h0 : a0 ∈ xs)
    (hk0 : key a0 = some q0) (h : sortDescNaLast key xs = y :: t) :
    ∃ qy, key y = some qy ∧ y ∈ xs ∧
      ∀ a ∈ xs, ∀ q, key a = some q → q ≤ qy := by
  have h0f : a0 ∈ xs.filter (fun a => (key a).isSome) :=
    List.mem_filter.mpr ⟨h0, by rw [hk0]; rfl⟩
  have h0s : a0 ∈ sortDescBy (fun a => (key a).getD 0)
      (xs.filter (fun a => (key a).isSome)) := mem_sortDescBy.mpr h0f
  cases hs : sortDescBy (fun a => (key a).getD 0)
      (xs.filter (fun a => (key a).isSome)) with
  | nil => rw [hs] at h0s; simp at h0s
  | cons y2 t2 =>
    have hy : y2 = y := by
      have := h
      rw [sortDescNaLast, hs] at this
      exact (List.cons_eq_cons.mp this).1
    subst hy
    have hmax := sortDescBy_head_max hs
    have hys : (key y2).isSome := (List.mem_filter.mp hmax.1).2
    cases hky : key y2 with
    | none => rw [hky] at hys; simp at hys
    | some qy =>
      refine ⟨qy, rfl, (List.mem_filter.mp hmax.1).1, ?_⟩
      intro a ha q hq
      have haf : a ∈ xs.filter (fun a => (key a).isSome) :=
        List.mem_filter.mpr ⟨ha, by rw [hq]; rfl⟩
      have := hmax.2 a haf
      rw [hq, hky] at this
      simpa using this

-- ---------- Helper lemmas on value_counts ----------

theorem vc_pairwise (xs : List (Option String)) :
    List.Pairwise (fun a b : String × Nat => b.2 ≤ a.2) (value_counts xs) := by
  have h := pairwise_sortDescBy (fun p : String × Nat => (p.2 : ℚ))
    ((xs.filterMap id).dedup.map
      (fun k => (k, (xs.filterMap id).count k)))
  refine h.imp ?_
  intro a b hr
  exact_mod_cast hr

theorem vc_mem {xs : List (Option String)} {p : String × Nat}
    (h : p ∈ value_counts xs) :
    some p.1 ∈ xs ∧ p.2 = (xs.filterMap id).count p.1 ∧ 0 < p.2 := by
  have h2 : p ∈ (xs.filterMap id).dedup.map
      (fun k => (k, (xs.filterMap id).count k)) := mem_sortDescBy.mp h
  rcases List.mem_map.mp h2 with ⟨k, hk, hp⟩
  have hkv : k ∈ xs.filterMap id := List.mem_dedup.mp hk
  have hsome : some k ∈ xs := by
    rcases List.mem_filterMap.mp hkv with ⟨a, ha, hak⟩
    simp only [id_eq] at hak
    rwa [hak] at ha
  subst hp
  refine ⟨hsome, rfl, List.count_pos_iff.mpr hkv⟩

theorem vc_complete {xs : List (Option String)} {v : String}
    (h : some v ∈ xs) :
    (v, (xs.filterMap id).count v) ∈ value_counts xs := by
  have hv : v ∈ xs.filterMap id := List.mem_filterMap.mpr ⟨some v, h, rfl⟩
  exact mem_sortDescBy.mpr
    (List.mem_map.mpr ⟨v, List.mem_dedup.mpr hv, rfl⟩)

theorem vc_congr {xs ys : List (Option String)}
    (h : xs.filterMap id = ys.filterMap id) :
    value_counts xs = value_counts ys := by
  unfold value_counts
  rw [h]

-- ---------- Helper lemmas on filters ----------

theorem filterMap_filter_isSome {α β : Type} (f : α → Option β) (l : List α) :
    (l.filter (fun a => (f a).isSome)).filterMap f = l.filterMap f := by
  induction l with
  | nil => rfl
  | cons x l ih =>
    cases h : f x <;>
      simp [List.filter_cons, List.filterMap_cons, h, ih]

theorem filter_of_implied {α : Type} (p q : α → Bool) (l : List α)
    (h : ∀ a, p a = true → q a = true) :
    (l.filter q).filter p = l.filter p := by
  rw [List.filter_filter]
  apply List.filter_congr
  intro a _
  cases hp : p a
  · simp
  · simp [h a hp]

theorem filter_comm2 {α : Type} (p q : α → Bool) (l : List α) :
    (l.filter q).filter p = (l.filter p).filter q := by
  rw [List.filter_filter, List.filter_filter]
  apply List.filter_congr
  intro a _
  rw [Bool.and_comm]

theorem regionFilter_filter {p : Homeowner → Bool} (region : Option String)
    (ds : List Homeowner) :
    regionFilter region (ds.filter p) = (regionFilter region ds).filter p := by
  cases region with
  | none => rfl
  | some s =>
    simp only [regionFilter]
    by_cases hc : s ≠ "" ∧ s ≠ "All Regions"
    · rw [if_pos hc, if_pos hc]
      exact filter_comm2 _ p ds
    · rw [if_neg hc, if_neg hc]

theorem subRegionFilter_filter {p : Homeowner → Bool} (sub : Option String)
    (ds : List Homeowner) :
    subRegionFilter sub (ds.filter p) =
      (subRegionFilter sub ds).filter p := by
  cases sub with
  | none => rfl
  | some s =>
    simp only [subRegionFilter]
    by_cases hc : s ≠ "" ∧ s ≠ "All Sub-Regions"
    · rw [if_pos hc, if_pos hc]
      exact filter_comm2 _ p ds
    · rw [if_neg hc, if_neg hc]

-- ---------- Null-segment invariance helpers ----------

theorem segKeys_filter_isSome (ds : List Homeowner) :
    segKeys (ds.filter (fun r => (r.segment).isSome)) = segKeys ds := by
  unfold segKeys
  exact congrArg List.dedup (filterMap_filter_isSome (fun r => r.segment) ds)

theorem segGroup_filter_isSome (ds : List Homeowner) (k : String) :
    segGroup (ds.filter (fun r => (r.segment).isSome)) k = segGroup ds k := by
  unfold segGroup
  apply filter_of_implied
  intro r hr
  rw [of_decide_eq_true hr]
  rfl

theorem groupScoreMean_filter_isSome (f : Homeowner → Option Int)
    (ds : List Homeowner) (k : String) :
    groupScoreMean f (ds.filter (fun r => (r.segment).isSome)) k =
      groupScoreMean f ds k := by
  unfold groupScoreMean
  rw [segGroup_filter_isSome]

theorem radarFallback_filter_isSome (f : Homeowner → Option Int)
    (ds : List Homeowner) :
    radarFallback f (ds.filter (fun r => (r.segment).isSome)) =
      radarFallback f ds := by
  unfold radarFallback
  rw [segKeys_filter_isSome]
  simp only [groupScoreMean_filter_isSome]

theorem segMeanRFMD_filter_isSome (ds : List Homeowner) (k : String) :
    segMeanRFMD (ds.filter (fun r => (r.segment).isSome)) k =
      segMeanRFMD ds k := by
  unfold segMeanRFMD
  rw [segGroup_filter_isSome]

theorem seg_scores_sorted_filter_isSome (ds : List Homeowner) :
    seg_scores_sorted (ds.filter (fun r => (r.segment).isSome)) =
      seg_scores_sorted ds := by
  unfold seg_scores_sorted seg_pairs
  rw [segKeys_filter_isSome]
  simp only [segMeanRFMD_filter_isSome]

-- ---------- Claim theorems ----------

/-- C1 counterexample: with a prior snapshot `[exCache]` cached at time 0 and
a failing fetch at time 1296001 (just past the TTL), `get()` returns the
empty dataset, not the prior snapshot; `last_refresh` is updated to 1296001;
and the immediately following call does not attempt a refresh.  This refutes
the claim as stated at a concrete input. -/
theorem c1_counterexample :
    get_cached_data none 1296001 ⟨some [exCache], 0⟩ =
        ⟨[], ⟨some [], 1296001⟩, true⟩ ∧
      ([] : List Homeowner) ≠ [exCache] ∧
      (1296001 : Int) ≠ 0 ∧
      (get_cached_data none 1296002 ⟨some [], 1296001⟩).loaderCalled =
        false := by
  decide

/-- C1 (amended): if the DataLoader fetch fails during a refresh attempt
while a prior snapshot exists, `get()` returns the empty dataset — the prior
snapshot is discarded, because `load_base_df` swallows the exception and
returns an empty DataFrame which the cache stores — and `last_refresh` IS
updated to the current time, so every immediately following call within the
TTL serves the empty dataset without retrying the fetch. -/
theorem c1_failure_discards_snapshot (s : CacheState)
    (prior : List Homeowner) (now : Int) (_hdata : s.data = some prior)
    (hstale : REFRESH_INTERVAL < now - s.last_refresh) :
    get_cached_data none now s = ⟨[], ⟨some [], now⟩, true⟩ ∧
      ∀ now2 fetch2, now2 - now ≤ REFRESH_INTERVAL →
        get_cached_data fetch2 now2 ⟨some [], now⟩ =
          ⟨[], ⟨some [], now⟩, false⟩ := by
  constructor
  · unfold get_cached_data
    rw [if_pos (Or.inr hstale)]
    rfl
  · intro now2 fetch2 h2
    unfold get_cached_data
    rw [if_neg]
    · rfl
    · rintro (h1 | h1)
      · exact Option.noConfusion h1
      · exact absurd h1 (not_lt.mpr h2)

/-- C1 witness: the amended behaviour at the concrete failure scenario. -/
theorem c1_witness :
    get_cached_data none 1296001 ⟨some [exCache], 0⟩ =
        ⟨[], ⟨some [], 1296001⟩, true⟩ ∧
      get_cached_data none 1296002 ⟨some [], 1296001⟩ =
        ⟨[], ⟨some [], 1296001⟩, false⟩ :=
  ⟨(c1_failure_discards_snapshot ⟨some [exCache], 0⟩ [exCache] 1296001 rfl
      (by decide)).1,
    (c1_failure_discards_snapshot ⟨some [exCache], 0⟩ [exCache] 1296001 rfl
      (by decide)).2 1296002 none (by decide)⟩

/-- C2: on the empty Dataset, `kpis()` and `summary()` return the empty
object — a normal response, not the error outcome — and `tradeCounts()`
returns the empty count list for every filter combination; none of them
fails. -/
theorem c2_empty_dataset_defaults :
    get_kpis [] = .ok none ∧ get_summary [] = .ok none ∧
      ∀ region sub_region, get_tradecounts [] region sub_region = [] := by
  refine ⟨rfl, rfl, ?_⟩
  intro region sub_region
  cases region <;> cases sub_region <;>
    simp [get_tradecounts, regionFilter, subRegionFilter, value_counts,
      sortDescBy]

/-- Inside one TTL window of a successful refresh, every sequential call
serves the cached snapshot unchanged and never invokes the loader. -/
theorem c3_runSeq_within_ttl (d : List Homeowner) (t0 : Int)
    (calls : List (Int × Option (List Homeowner)))
    (h : ∀ c ∈ calls, c.1 - t0 ≤ REFRESH_INTERVAL) :
    runSeq ⟨some d, t0⟩ calls = (calls.map (fun _ => d), ⟨some d, t0⟩, 0) := by
  induction calls with
  | nil => rfl
  | cons c rest ih =>
    have hc := h c (List.mem_cons_self c rest)
    have hstep : get_cached_data c.2 c.1 ⟨some d, t0⟩ =
        ⟨d, ⟨some d, t0⟩, false⟩ := by
      unfold get_cached_data
      rw [if_neg]
      · rfl
      · rintro (h1 | h1)
        · exact Option.noConfusion h1
        · exact absurd h1 (not_lt.mpr hc)
    simp only [runSeq, hstep, ih (fun c2 hc2 => h c2 (List.mem_cons_of_mem c hc2)),
      List.map_cons]
    rfl

/-- C3: starting from a cold or stale cache, a successful refresh at `t0`
followed by any sequence of calls at times within `t0 + TTL` returns the
identical snapshot `d` on every call, leaves the cache state unchanged, and
invokes the DataLoader exactly once (the refreshing call) — in particular at
most once within the TTL window. -/
theorem c3_ttl_window_single_refresh (s : CacheState) (t0 : Int)
    (d : List Homeowner) (calls : List (Int × Option (List Homeowner)))
    (hstale : s.data = none ∨ REFRESH_INTERVAL < t0 - s.last_refresh)
    (hwin : ∀ c ∈ calls, c.1 - t0 ≤ REFRESH_INTERVAL) :
    runSeq s ((t0, some d) :: calls) =
      (d :: calls.map (fun _ => d), ⟨some d, t0⟩, 1) := by
  have hstep : get_cached_data (some d) t0 s = ⟨d, ⟨some d, t0⟩, true⟩ := by
    unfold get_cached_data
    rw [if_pos hstale]
    rfl
  simp only [runSeq, hstep, c3_runSeq_within_ttl d t0 calls hwin]
  simp

/-- C3 witness: a cold cache, a successful refresh at time 0, a failing-fetch
environment at time 1 and a fetch returning `[]` at time 1296000 (the TTL
boundary): all three calls serve the snapshot loaded at time 0 and the
loader runs exactly once. -/
theorem c3_witness :
    runSeq ⟨none, 0⟩ [(0, some [exCache]), (1, none), (1296000, some [])] =
      ([[exCache], [exCache], [exCache]], ⟨some [exCache], 0⟩, 1) := by
  have h := c3_ttl_window_single_refresh ⟨none, 0⟩ 0 [exCache]
    [(1, none), (1296000, some [])] (Or.inl rfl) (by decide)
  simpa using h

/-- C4 counterexample: the empty string is a present segment group (segments
{"": scores 1, "B": scores 3}), yet `radar("")` serves the mean-of-means
fallback, not group ""'s averages, because Python truthiness short-circuits
the membership test. -/
theorem c4_counterexample :
    "" ∈ segKeys [exSegEmpty, exSegOther] ∧
      (get_radar [exSegEmpty, exSegOther] (some "")).scores ≠
        [groupScoreMean (fun r => r.R_score) [exSegEmpty, exSegOther] "",
          groupScoreMean (fun r => r.F_score) [exSegEmpty, exSegOther] "",
          groupScoreMean (fun r => r.M_score) [exSegEmpty, exSegOther] "",
          groupScoreMean (fun r => r.D_score) [exSegEmpty, exSegOther] ""] := by
  refine ⟨by decide, ?_⟩
  have h1 : (get_radar [exSegEmpty, exSegOther] (some "")).scores =
      [some 2, some 2, some 2, some 2] := by
    simp [get_radar, radarFallback, segKeys, groupScoreMean, meanBy,
      optMeanQ, segGroup, intScore, exSegEmpty, exSegOther]
    norm_num
  have h2 : groupScoreMean (fun r => r.R_score) [exSegEmpty, exSegOther] "" =
      some 1 := by
    simp [groupScoreMean, meanBy, optMeanQ, segGroup, intScore, exSegEmpty,
      exSegOther]
  rw [h1, h2]
  simp

/-- C4 (amended): `radar` groups by segment and averages the four score
columns per group; if the requested segment is a NON-EMPTY string present
among the groups it serves that group's averages, and otherwise — including
any unknown segment, the absent parameter, and the empty string even when ""
is itself a group — it serves the mean of the per-group averages (a mean of
means, not a flat mean over records), never failing. -/
theorem c4_radar_selection (ds : List Homeowner) (s : String) :
    (s ≠ "" → s ∈ segKeys ds →
      (get_radar ds (some s)).scores =
        [groupScoreMean (fun r => r.R_score) ds s,
          groupScoreMean (fun r => r.F_score) ds s,
          groupScoreMean (fun r => r.M_score) ds s,
          groupScoreMean (fun r => r.D_score) ds s]) ∧
    (s ∉ segKeys ds →
      (get_radar ds (some s)).scores =
        [radarFallback (fun r => r.R_score) ds,
          radarFallback (fun r => r.F_score) ds,
          radarFallback (fun r => r.M_score) ds,
          radarFallback (fun r => r.D_score) ds]) ∧
    ((get_radar ds (some "")).scores =
      [radarFallback (fun r => r.R_score) ds,
        radarFallback (fun r => r.F_score) ds,
        radarFallback (fun r => r.M_score) ds,
        radarFallback (fun r => r.D_score) ds]) ∧
    ((get_radar ds none).scores =
      [radarFallback (fun r => r.R_score) ds,
        radarFallback (fun r => r.F_score) ds,
        radarFallback (fun r => r.M_score) ds,
        radarFallback (fun r => r.D_score) ds]) := by
  refine ⟨?_, ?_, ?_, ?_⟩
  · intro hne hmem
    simp [get_radar, hne, hmem]
  · intro hnot
    simp [get_radar, hnot]
  · simp [get_radar]
  · simp [get_radar]

/-- C4 witness: the spec's radar example — segments {A: [1,2,3,4],
B: [3,4,5,6]}, unknown segment "NoSuchSegment" — produces the mean-of-means
[2,3,4,5]. -/
theorem c4_witness :
    "NoSuchSegment" ∉ segKeys [exSegA, exSegB] ∧
      (get_radar [exSegA, exSegB] (some "NoSuchSegment")).scores =
        [some 2, some 3, some 4, some 5] := by
  refine ⟨by decide, ?_⟩
  rw [(c4_radar_selection [exSegA, exSegB] "NoSuchSegment").2.1 (by decide)]
  simp [radarFallback, segKeys, groupScoreMean, meanBy, optMeanQ, segGroup,
    intScore, exSegA, exSegB]
  norm_num

-- ---------- Stability of the descending sort ----------

theorem regionFilter_eq_filter (region : Option String)
    (ds : List Homeowner) :
    regionFilter region ds = ds.filter (regionPass region) := by
  cases region with
  | none => exact (List.filter_eq_self.mpr (fun r _ => rfl)).symm
  | some s =>
    simp only [regionFilter]
    by_cases hc : s ≠ "" ∧ s ≠ "All Regions"
    · rw [if_pos hc]
      apply List.filter_congr
      intro r _
      simp [regionPass, hc]
    · rw [if_neg hc]
      refine (List.filter_eq_self.mpr ?_).symm
      intro r _
      simp [regionPass, if_neg hc]

theorem subRegionFilter_eq_filter (sub : Option String)
    (ds : List Homeowner) :
    subRegionFilter sub ds = ds.filter (subRegionPass sub) := by
  cases sub with
  | none => exact (List.filter_eq_self.mpr (fun r _ => rfl)).symm
  | some s =>
    simp only [subRegionFilter]
    by_cases hc : s ≠ "" ∧ s ≠ "All Sub-Regions"
    · rw [if_pos hc]
      apply List.filter_congr
      intro r _
      simp [subRegionPass, hc]
    · rw [if_neg hc]
      refine (List.filter_eq_self.mpr ?_).symm
      intro r _
      simp [subRegionPass, if_neg hc]

theorem tradecounts_filters_spec (ds : List Homeowner)
    (region sub : Option String) :
    subRegionFilter sub (regionFilter region ds) =
      ds.filter (specKeep region sub) := by
  rw [regionFilter_eq_filter, subRegionFilter_eq_filter, List.filter_filter]
  apply List.filter_congr
  intro r _
  simp [specKeep, Bool.and_comm]

/-- C6 counterexample: with the empty string as the region argument the code
skips the region filter entirely (Python truthiness), so a Trade from a
record whose region is NOT "" is still counted, contradicting "keeps exactly
the records whose region equals the given region". -/
theorem c6_counterexample :
    ("Y", 1) ∈ get_tradecounts [exRegEmpty, exRegN] (some "") none ∧
      [exRegEmpty, exRegN].filter (fun r => r.region = some "") =
        [exRegEmpty] ∧
      exRegEmpty.Trade = some "X" ∧ "X" ≠ "Y" := by
  decide

/-- C6 (amended): `tradeCounts` keeps exactly the records whose region
equals the given region — skipping that filter when the argument is absent,
EMPTY, or "All Regions" — and whose sub_region equals the given sub_region
(skipping when absent, empty, or "All Sub-Regions"), then counts occurrences
per non-null Trade value over the kept records; with no matching record the
result is the empty count list. -/
theorem c6_tradecounts_filter (ds : List Homeowner)
    (region sub_region : Option String) :
    get_tradecounts ds region sub_region =
      value_counts ((ds.filter (specKeep region sub_region)).map
        (fun r => r.Trade)) ∧
    (∀ p ∈ get_tradecounts ds region sub_region,
      p.2 = ((ds.filter (specKeep region sub_region)).filterMap
          (fun r => r.Trade)).count p.1 ∧ 0 < p.2) ∧
    (∀ v : String,
      some v ∈ (ds.filter (specKeep region sub_region)).map
        (fun r => r.Trade) →
      ∃ c, (v, c) ∈ get_tradecounts ds region sub_region) ∧
    (ds.filter (specKeep region sub_region) = [] →
      get_tradecounts ds region sub_region = []) := by
  have hmain : get_tradecounts ds region sub_region =
      value_counts ((ds.filter (specKeep region sub_region)).map
        (fun r => r.Trade)) := by
    unfold get_tradecounts
    rw [tradecounts_filters_spec]
  have hlist : (((ds.filter (specKeep region sub_region)).map
        (fun r => r.Trade)).filterMap id) =
      (ds.filter (specKeep region sub_region)).filterMap
        (fun r => r.Trade) := by
    rw [List.filterMap_map]
    rfl
  refine ⟨hmain, ?_, ?_, ?_⟩
  · intro p hp
    rw [hmain] at hp
    have h := vc_mem hp
    refine ⟨?_, h.2.2⟩
    rw [h.2.1, hlist]
  · intro v hv
    rw [hmain]
    exact ⟨_, vc_complete hv⟩
  · intro hnil
    rw [hmain, hnil]
    rfl

/-- C6 witness: the spec's test vector {North/A, North/B, South/A}; the
region="North" call equals counting over the claim-side filtered records,
and an unmatched filter pair yields the empty list. -/
theorem c6_witness :
    get_tradecounts [exNorthA, exNorthB, exSouthA] (some "North") none =
      value_counts (([exNorthA, exNorthB, exSouthA].filter
        (specKeep (some "North") none)).map (fun r => r.Trade)) ∧
      [exNorthA, exNorthB, exSouthA].filter
        (specKeep (some "Z") (some "Q")) = [] ∧
      get_tradecounts [exNorthA, exNorthB, exSouthA] (some "Z")
        (some "Q") = [] :=
  ⟨(c6_tradecounts_filter [exNorthA, exNorthB, exSouthA] (some "North")
      none).1,
    by decide,
    (c6_tradecounts_filter [exNorthA, exNorthB, exSouthA] (some "Z")
      (some "Q")).2.2.2 (by decide)⟩

/-- C9: for every Dataset and filter combination, the `tradeCounts` result
is sorted by Count descending, and records with a null Trade are excluded
from the counts entirely — dropping them from the input changes nothing. -/
theorem c9_tradecounts_sorted_nonnull (ds : List Homeowner)
    (region sub_region : Option String) :
    List.Pairwise (fun a b : String × Nat => b.2 ≤ a.2)
      (get_tradecounts ds region sub_region) ∧
    get_tradecounts ds region sub_region =
      get_tradecounts (ds.filter (fun r => (r.Trade).isSome)) region
        sub_region := by
  constructor
  · unfold get_tradecounts
    exact vc_pairwise _
  · unfold get_tradecounts
    rw [regionFilter_filter, subRegionFilter_filter]
    apply vc_congr
    have h1 : ∀ L : List Homeowner, (L.map (fun r => r.Trade)).filterMap id =
        L.filterMap (fun r => r.Trade) := by
      intro L
      rw [List.filterMap_map]
      rfl
    rw [h1, h1]
    exact (filterMap_filter_isSome (fun r : Homeowner => r.Trade) _).symm

-- ---------- Summary run/extraction helpers ----------

theorem idxmaxCount_isSome {xs : List (Option String)} {v : String}
    (h : some v ∈ xs) : ∃ t, idxmaxCount xs = some t := by
  have hm := vc_complete h
  cases hvc : value_counts xs with
  | nil => rw [hvc] at hm; simp at hm
  | cons p t => exact ⟨p.1, by simp [idxmaxCount, hvc]⟩

theorem get_summary_runs {ds : List Homeowner} (hne : ds ≠ [])
    (ht : ∃ r ∈ ds, (r.Trade).isSome)
    (hr : ∃ r ∈ ds, (r.region).isSome) :
    ∃ out, get_summary ds = ApiResult.ok (some out) := by
  have hemp : ds.isEmpty = false := by
    cases ds with
    | nil => exact absurd rfl hne
    | cons x l => rfl
  obtain ⟨rt, hrt, hts⟩ := ht
  obtain ⟨rr, hrr, hrs⟩ := hr
  obtain ⟨vt, hvt⟩ := Option.isSome_iff_exists.mp hts
  obtain ⟨vr, hvr⟩ := Option.isSome_iff_exists.mp hrs
  have hmt : some vt ∈ ds.map (fun r => r.Trade) :=
    List.mem_map.mpr ⟨rt, hrt, hvt⟩
  have hmr : some vr ∈ ds.map (fun r => r.region) :=
    List.mem_map.mpr ⟨rr, hrr, hvr⟩
  obtain ⟨tt, htt⟩ := idxmaxCount_isSome hmt
  obtain ⟨tr, htr⟩ := idxmaxCount_isSome hmr
  have hgs : get_summary ds = ApiResult.ok (some
      { total_customers := ds.length
        avg_rfmd := rnd2o (meanBy (fun r => r.RFMD_score) ds)
        top_trade := tt
        top_region := tr
        avg_monetary := rnd2o (meanBy (fun r => r.monetary) ds)
        avg_frequency := rnd2o (meanBy (intScore (fun r => r.frequency)) ds)
        best_segment := match seg_scores_sorted ds with
          | [] => "N/A"
          | p :: _ => p.1
        best_segment_score := match seg_scores_sorted ds with
          | [] => some 0
          | p :: _ => rnd2o p.2
        best_region_revenue := match reg_scores_sorted ds with
          | [] => "N/A"
          | p :: _ => p.1
        best_region_revenue_value := match reg_scores_sorted ds with
          | [] => 0
          | p :: _ => rnd2 p.2 }) := by
    unfold get_summary
    rw [if_neg (by simp [hemp]), htt, htr]
  exact ⟨_, hgs⟩

theorem get_summary_ok_inv {ds : List Homeowner} {out : SummaryOut}
    (h : get_summary ds = ApiResult.ok (some out)) :
    out.best_segment = (match seg_scores_sorted ds with
      | [] => "N/A"
      | p :: _ => p.1) ∧
    out.best_segment_score = (match seg_scores_sorted ds with
      | [] => some 0
      | p :: _ => rnd2o p.2) ∧
    out.best_region_revenue = (match reg_scores_sorted ds with
      | [] => "N/A"
      | p :: _ => p.1) ∧
    out.best_region_revenue_value = (match reg_scores_sorted ds with
      | [] => 0
      | p :: _ => rnd2 p.2) := by
  unfold get_summary at h
  split at h
  · simp at h
  · split at h
    · simp only [ApiResult.ok.injEq, Option.some.injEq] at h
      subst h
      exact ⟨rfl, rfl, rfl, rfl⟩
    · simp at h

/-- C7 counterexample.  Part 1: `[exNoSeg]` is non-empty with present Trade
and region values — so `summary()` returns normally — but no non-null
segment: there are no segment groups and the reported `best_segment` is the
literal "N/A", which is not a segment of any group, refuting the claim at
that input.  Part 2: on `[exEighth]` (which also returns normally) the best
segment's exact mean is 1/8, yet the reported `best_segment_score` is the
half-even-rounded 0.12, not the mean itself. -/
theorem c7_counterexample :
    (([exNoSeg] : List Homeowner) ≠ [] ∧
      apiMap (Option.map (fun o => o.best_segment)) (get_summary [exNoSeg]) =
        ApiResult.ok (some "N/A") ∧
      segKeys [exNoSeg] = []) ∧
    (apiMap (Option.map (fun o => o.best_segment_score))
        (get_summary [exEighth]) = ApiResult.ok (some (some (3 / 25))) ∧
      segMeanRFMD [exEighth] "A" = some (1 / 8) ∧
      (3 / 25 : ℚ) ≠ 1 / 8) := by
  refine ⟨by decide, ?_, ?_, by norm_num⟩
  · have hne : ([exEighth] : List Homeowner) ≠ [] := List.cons_ne_nil _ _
    have ht : ∃ r ∈ ([exEighth] : List Homeowner), (r.Trade).isSome :=
      ⟨exEighth, List.mem_cons_self exEighth [], by decide⟩
    have hrg : ∃ r ∈ ([exEighth] : List Homeowner), (r.region).isSome :=
      ⟨exEighth, List.mem_cons_self exEighth [], by decide⟩
    obtain ⟨out, hout⟩ := get_summary_runs hne ht hrg
    have hinv := (get_summary_ok_inv hout).2.1
    have hmean : segMeanRFMD [exEighth] "A" = some (1 / 8) := by
      simp [segMeanRFMD, meanBy, optMeanQ, segGroup, exEighth]
    have hsorted : seg_scores_sorted [exEighth] = [("A", some (1 / 8))] := by
      have hk : segKeys [exEighth] = ["A"] := by decide
      rw [seg_scores_sorted, seg_pairs, hk]
      simp [sortDescNaLast, sortDescBy, List.insertionSort,
        List.orderedInsert, hmean]
    have hscore : out.best_segment_score = some (rnd2 (1 / 8)) := by
      rw [hinv, hsorted]
      rfl
    have hrnd : rnd2 (1 / 8 : ℚ) = 3 / 25 := by
      simp [rnd2]
      norm_num [Int.fract]
    rw [hout]
    show ApiResult.ok (some out.best_segment_score) =
      ApiResult.ok (some (some (3 / 25)))
    rw [hscore, hrnd]
  · simp [segMeanRFMD, meanBy, optMeanQ, segGroup, exEighth]

/-- C7 (amended): for every non-empty Dataset with at least one non-null
Trade and at least one non-null region — otherwise `summary()` raises
`ValueError` in `idxmax` instead of returning — (a) whenever some segment
group has a defined mean `RFMD_score`, `best_segment` is a segment group
whose mean is maximal among the groups with defined means, and
`best_segment_score` is that maximal mean rounded to 2 decimal places; (b)
whenever at least one record has a non-null region, `best_region_revenue`
is a region group whose summed `monetary` is maximal, with that sum rounded
to 2 decimal places as its value.  (With no segment group the source
reports the fallback "N/A" / 0 instead.) -/
theorem c7_summary_best (ds : List Homeowner) (hne : ds ≠ [])
    (htr : ∃ r ∈ ds, (r.Trade).isSome)
    (hrg : ∃ r ∈ ds, (r.region).isSome) :
    ((∃ k0 ∈ segKeys ds, segMeanRFMD ds k0 ≠ none) →
      ∃ out m, get_summary ds = ApiResult.ok (some out) ∧
        out.best_segment ∈ segKeys ds ∧
        segMeanRFMD ds out.best_segment = some m ∧
        out.best_segment_score = some (rnd2 m) ∧
        ∀ k ∈ segKeys ds, ∀ q, segMeanRFMD ds k = some q → q ≤ m) ∧
    (regionKeys ds ≠ [] →
      ∃ out, get_summary ds = ApiResult.ok (some out) ∧
        out.best_region_revenue ∈ regionKeys ds ∧
        out.best_region_revenue_value =
          rnd2 (regMonetarySum ds out.best_region_revenue) ∧
        ∀ k ∈ regionKeys ds,
          regMonetarySum ds k ≤
            regMonetarySum ds out.best_region_revenue) := by
  obtain ⟨out, hout⟩ := get_summary_runs hne htr hrg
  obtain ⟨hbs, hbss, hbr, hbrv⟩ := get_summary_ok_inv hout
  constructor
  · rintro ⟨k0, hk0, hnn⟩
    obtain ⟨q0, hq0⟩ := Option.ne_none_iff_exists'.mp hnn
    have hpair : (k0, segMeanRFMD ds k0) ∈ seg_pairs ds :=
      List.mem_map.mpr ⟨k0, hk0, rfl⟩
    cases hs : seg_scores_sorted ds with
    | nil =>
      exfalso
      have hmem : (k0, segMeanRFMD ds k0) ∈ seg_scores_sorted ds :=
        mem_sortDescNaLast.mpr hpair
      rw [hs] at hmem
      simp at hmem
    | cons y t =>
      have hs2 : sortDescNaLast (fun p : String × Option ℚ => p.2)
          (seg_pairs ds) = y :: t := hs
      obtain ⟨qy, hkey, hymem, hmaxall⟩ :=
        sortDescNaLast_head_max hpair hq0 hs2
      obtain ⟨ky, hky, hyeq⟩ := List.mem_map.mp hymem
      have hmean : segMeanRFMD ds ky = some qy := by
        rw [← hyeq] at hkey
        exact hkey
      refine ⟨out, qy, hout, ?_, ?_, ?_, ?_⟩
      · rw [hbs]
        simp only [hs]
        rw [← hyeq]
        exact hky
      · rw [hbs]
        simp only [hs]
        rw [← hyeq]
        exact hmean
      · rw [hbss]
        simp only [hs]
        rw [← hyeq]
        simp [rnd2o, hmean]
      · intro k hk q hq
        exact hmaxall (k, segMeanRFMD ds k)
          (List.mem_map.mpr ⟨k, hk, rfl⟩) q hq
  · intro hrk
    cases hr : reg_scores_sorted ds with
    | nil =>
      exfalso
      have h1 : (reg_scores_sorted ds).length = (regionKeys ds).length := by
        unfold reg_scores_sorted reg_pairs
        rw [length_sortDescBy, List.length_map]
      rw [hr] at h1
      cases hk : regionKeys ds with
      | nil => exact hrk hk
      | cons a l => rw [hk] at h1; simp at h1
    | cons y t =>
      have hr2 : sortDescBy (fun p : String × ℚ => p.2) (reg_pairs ds) =
          y :: t := hr
      have hy := sortDescBy_head_max hr2
      obtain ⟨ky, hky, hyeq⟩ := List.mem_map.mp hy.1
      refine ⟨out, hout, ?_, ?_, ?_⟩
      · rw [hbr]
        simp only [hr]
        rw [← hyeq]
        exact hky
      · rw [hbrv, hbr]
        simp only [hr]
        rw [← hyeq]
      · intro k hk
        have h2 := hy.2 (k, regMonetarySum ds k)
          (List.mem_map.mpr ⟨k, hk, rfl⟩)
        rw [hbr]
        simp only [hr]
        rw [← hyeq] at h2 ⊢
        simpa using h2

/-- C7 witness: on a single-record dataset with segment "S" (mean 3),
region "W" (sum 7), and a non-null Trade, both parts of the amended claim
apply. -/
theorem c7_witness :
    (∃ k0 ∈ segKeys [exFull], segMeanRFMD [exFull] k0 ≠ none) ∧
      (∃ out m, get_summary [exFull] = ApiResult.ok (some out) ∧
        out.best_segment ∈ segKeys [exFull] ∧
        segMeanRFMD [exFull] out.best_segment = some m ∧
        out.best_segment_score = some (rnd2 m) ∧
        ∀ k ∈ segKeys [exFull], ∀ q,
          segMeanRFMD [exFull] k = some q → q ≤ m) ∧
      (∃ out, get_summary [exFull] = ApiResult.ok (some out) ∧
        out.best_region_revenue ∈ regionKeys [exFull] ∧
        out.best_region_revenue_value =
          rnd2 (regMonetarySum [exFull] out.best_region_revenue) ∧
        ∀ k ∈ regionKeys [exFull],
          regMonetarySum [exFull] k ≤
            regMonetarySum [exFull] out.best_region_revenue) :=
  ⟨⟨"S", by decide, by decide⟩,
    (c7_summary_best [exFull] (by decide) ⟨exFull, by decide, by decide⟩
      ⟨exFull, by decide, by decide⟩).1 ⟨"S", by decide, by decide⟩,
    (c7_summary_best [exFull] (by decide) ⟨exFull, by decide, by decide⟩
      ⟨exFull, by decide, by decide⟩).2 (by decide)⟩

/-- C10: null-segment records are excluded from the segment grouping — the
group keys and every group's rows are unchanged when they are dropped — and
therefore contribute neither to any radar group average or its mean-of-means
fallback (`radar` output is identical), nor to the sorted per-segment mean
series from which `summary()` selects `best_segment` and
`best_segment_score`. -/
theorem c10_null_segments_excluded (ds : List Homeowner)
    (seg : Option String) :
    segKeys (ds.filter (fun r => (r.segment).isSome)) = segKeys ds ∧
    (∀ k, segGroup (ds.filter (fun r => (r.segment).isSome)) k =
      segGroup ds k) ∧
    get_radar (ds.filter (fun r => (r.segment).isSome)) seg =
      get_radar ds seg ∧
    seg_scores_sorted (ds.filter (fun r => (r.segment).isSome)) =
      seg_scores_sorted ds ∧
    (∀ out out2, get_summary ds = ApiResult.ok (some out) →
      get_summary (ds.filter (fun r => (r.segment).isSome)) =
        ApiResult.ok (some out2) →
      out.best_segment = out2.best_segment ∧
      out.best_segment_score = out2.best_segment_score) := by
  refine ⟨segKeys_filter_isSome ds, segGroup_filter_isSome ds, ?_, ?_, ?_⟩
  · unfold get_radar
    simp only [segKeys_filter_isSome, groupScoreMean_filter_isSome,
      radarFallback_filter_isSome]
  · exact seg_scores_sorted_filter_isSome ds
  · intro out out2 hout hout2
    obtain ⟨hb1, hc1, _, _⟩ := get_summary_ok_inv hout
    obtain ⟨hb2, hc2, _, _⟩ := get_summary_ok_inv hout2
    rw [hb1, hc1, hb2, hc2, seg_scores_sorted_filter_isSome]
    exact ⟨rfl, rfl⟩

/-- C10 witness: on a dataset with one "A"-segment record and one
null-segment record, dropping the null-segment record leaves the sorted
per-segment mean series identical, while the dataset genuinely shrinks. -/
theorem c10_witness :
    seg_scores_sorted ([exSegOnly, exNull].filter
        (fun r => (r.segment).isSome)) =
      seg_scores_sorted [exSegOnly, exNull] ∧
    ([exSegOnly, exNull].filter (fun r => (r.segment).isSome)).length <
      ([exSegOnly, exNull] : List Homeowner).length :=
  ⟨(c10_null_segments_excluded [exSegOnly, exNull] none).2.2.2.1,
    by decide⟩

end RFMD
